import Mathlib

/-!
Verification of the jarvis-cli repository (src/jarvis/{client,cli,scanner}.py)
against its natural-language specification.

The Python source is shallowly embedded: each relevant Python function is
translated into an executable Lean definition over `String` / `List` data,
and the spec's claims are settled as theorems about those definitions.
-/

set_option autoImplicit false

namespace Jarvis

/-! ### Python string primitives used by the source

These model the exact Python `str` operations the repository calls:
`str.strip`, `str.lower`, `str.rstrip("\n")`, `str.startswith`,
`str.endswith`, `str.split()` / `str.split(maxsplit=1)`, `"\n".join`,
`" ".join` and `"".join`.  Strings are handled through their character
lists so every definition reduces structurally.
-/

/-- Characters Python's `str.strip` / `str.split` treat as whitespace
(ASCII subset, which covers every input exercised here). -/
def isPyWs (c : Char) : Bool :=
  c = ' ' || c = '\t' || c = '\n' || c = '\r' || c = '\x0b' || c = '\x0c'

/-- `str.strip()`: drop leading and trailing whitespace. -/
def pyStrip (s : String) : String :=
  String.mk (((s.data.dropWhile isPyWs).reverse.dropWhile isPyWs).reverse)

/-- `str.lower()` (ASCII case folding, enough for the slash commands). -/
def pyLower (s : String) : String :=
  String.mk (s.data.map Char.toLower)

/-- `str.rstrip("\n")`: drop trailing newline characters. -/
def pyRstripNl (s : String) : String :=
  String.mk ((s.data.reverse.dropWhile (· = '\n')).reverse)

/-- Character-list version of `str.startswith`. -/
def charsStartWith : List Char → List Char → Bool
  | [], _ => true
  | _ :: _, [] => false
  | a :: asx, b :: bs => a = b && charsStartWith asx bs

/-- `str.startswith(pre)`. -/
def pyStartsWith (s pre : String) : Bool :=
  charsStartWith pre.data s.data

/-- `str.endswith(suf)`. -/
def pyEndsWith (s suf : String) : Bool :=
  charsStartWith suf.data.reverse s.data.reverse

/-- `sep.join(parts)` for a one-character separator, written directly on the
part list (used for `"\n".join(tree)` and `"\n".join(lines)`). -/
def joinWith (sep : Char) : List String → String
  | [] => ""
  | [s] => s
  | s :: rest => s ++ String.mk [sep] ++ joinWith sep rest

/-- `"".join(parts)`. -/
def strJoin : List String → String
  | [] => ""
  | s :: rest => s ++ strJoin rest

/-- Helper for `str.split()`: split a character list on whitespace runs,
dropping empty pieces; `acc` holds the current word reversed. -/
def splitWsAux : List Char → List Char → List (List Char)
  | [], [] => []
  | [], acc => [acc.reverse]
  | c :: cs, acc =>
    if isPyWs c then
      if acc = [] then splitWsAux cs [] else acc.reverse :: splitWsAux cs []
    else splitWsAux cs (c :: acc)

/-- `str.split()` with no arguments: whitespace-separated words. -/
def pySplitWs (s : String) : List String :=
  (splitWsAux s.data []).map String.mk

/-- `str.split(maxsplit=1)`: at most one split; the second element keeps the
remainder verbatim after the whitespace run that follows the first word. -/
def pySplitMax1 (s : String) : List String :=
  let t := s.data.dropWhile isPyWs
  if t = [] then []
  else
    let w := t.takeWhile (fun c => !isPyWs c)
    let r := (t.dropWhile (fun c => !isPyWs c)).dropWhile isPyWs
    if r = [] then [String.mk w] else [String.mk w, String.mk r]

/-! ### src/jarvis/client.py -/

/-- Module constant `MODEL_NAME` (client.py line 17). -/
def MODEL_NAME : String := "gemma3:4b"

/-- Module constant `MAX_RETRIES` (client.py line 18). -/
def MAX_RETRIES : Nat := 3

/-- Module constant `BACKOFF_SEC` (client.py line 19); seconds as a rational. -/
def BACKOFF_SEC : Rat := 1.5

/-- One history entry: `{"role": ..., "content": ...}`. -/
structure Message where
  role : String
  content : String
deriving DecidableEq, Repr

/-- The history installed by `JarvisClient.__init__` (client.py lines 27-36):
a single system message. -/
def initHistory : List Message :=
  [⟨"system",
    "You are **Jarvis**, Tony‑Stark‑style AI assistant. " ++
    "Respond concisely with helpful explanations. " ++
    "Format code inside triple‑backtick blocks."⟩]

/-- `JarvisClient.reset` (client.py line 46): `self._history[:1]`. -/
def reset (history : List Message) : List Message :=
  history.take 1

/-- Outcome of one `ollama.chat(..., stream=True)` attempt as observed by
`ask`: either the stream runs to completion yielding `chunks`, or it yields
a prefix of chunks and then raises `ConnectionError` / `ReadTimeout`. -/
inductive Attempt where
  | success (chunks : List String)
  | failure (chunksBeforeError : List String)
deriving DecidableEq, Repr

/-- Observable effect of one call to `JarvisClient.ask`, with the generator
run to exhaustion: the fragments yielded to the consumer in order, the
history afterwards, the `time.sleep` durations performed in order, and
whether the final `RuntimeError` ("Unavailable") was raised. -/
structure AskResult where
  yielded : List String
  history : List Message
  sleeps : List Rat
  error : Bool
deriving DecidableEq, Repr

/-- Python `self._history[-1]` (the history is never empty there). -/
def pyLastMsg (l : List Message) : Message :=
  l.getLastD ⟨"", ""⟩

/-- The retry loop of `ask` (client.py lines 61-83).  `rem` counts the
attempts still allowed, `attempt` is the 1-based attempt number; on success
the assistant entry is appended with `self._history[-1]["content"]` exactly
as line 72 does, on failure `time.sleep(BACKOFF_SEC * attempt)` is recorded
and the next attempt starts; when attempts run out the `RuntimeError` of
line 83 is raised. -/
def askGo (backend : Nat → Attempt) :
    Nat → Nat → List Message → List String → List Rat → AskResult
  | 0, _, hist, yielded, sleeps => ⟨yielded, hist, sleeps, true⟩
  | rem + 1, attempt, hist, yielded, sleeps =>
    match backend attempt with
    | .success chunks =>
      ⟨yielded ++ chunks,
       hist ++ [⟨"assistant", (pyLastMsg hist).content⟩],
       sleeps, false⟩
    | .failure pc =>
      askGo backend rem (attempt + 1) hist (yielded ++ pc)
        (sleeps ++ [BACKOFF_SEC * (attempt : Rat)])

/-- `JarvisClient.ask` (client.py lines 48-83): append the user message,
then run the retry loop. -/
def ask (backend : Nat → Attempt) (history : List Message) (prompt : String) :
    AskResult :=
  askGo backend MAX_RETRIES 1 (history ++ [⟨"user", prompt⟩]) [] []

/-! ### src/jarvis/cli.py -/

/-- A line that is exactly `/send` or `/new` after `strip().lower()`
(cli.py line 74-75). -/
def isSentinel (line : String) : Bool :=
  pyLower (pyStrip line) = "/send" || pyLower (pyStrip line) = "/new"

/-- The reading loop of `_read_multiline_question` (cli.py lines 63-81) over
a finite list of pending stdin lines; `lines` is the accumulator.  Running
out of input models `EOFError` (the program exits), returned as `none`;
otherwise the captured line list — terminator included, as the code keeps
it — is returned. -/
def readAux : List String → List String → Option (List String)
  | [], _ => none
  | line :: rest, lines =>
    if isSentinel line || (line = "" && lines ≠ []) then
      some (lines ++ [line])
    else if line = "" && lines = [] then
      readAux rest lines
    else
      readAux rest (lines ++ [line])

/-- `_read_multiline_question` (cli.py lines 38-83) on a list of stdin
lines: capture lines, then `"\n".join(lines).rstrip("\n")`. -/
def readQuestion (input : List String) : Option String :=
  (readAux input []).map (fun ls => pyRstripNl (joinWith '\n' ls))

/-- Attribute names `class JarvisClient` defines besides `__init__`
(client.py lines 22-83): only `reset` and `ask`.  In particular there is no
`scan_codebase` attribute. -/
def jarvisClientAttrs : List String := ["reset", "ask"]

/-- Result of one iteration of the interactive loop body (cli.py lines
140-154) on an already-read question: the client history afterwards, the
prompt passed to `client.ask` if any, the console messages printed, and the
exception escaping the iteration if any. -/
structure StepOut where
  history : List Message
  asked : Option String
  printed : List String
  raised : Option String
deriving DecidableEq, Repr

/-- The dispatch of cli.py lines 141-154 for one non-`ask` step.  For
`/scancode` the code evaluates `client.scan_codebase` before its argument;
`JarvisClient` defines no such attribute, so an `AttributeError` is raised
there.  For trailing `/new` the code calls `client.reset()` and prints the
confirmation.  Otherwise the question is submitted to `client.ask` (whose
history effect is modelled by `ask` above; here the submitted prompt is
recorded). -/
def loopBody (hist : List Message) (question : String) : StepOut :=
  if pyStrip question = "" then
    ⟨hist, none, [], none⟩
  else if pyStartsWith (pyLower (pyStrip question)) "/scancode" then
    let _parts := pySplitMax1 question
    if jarvisClientAttrs.contains "scan_codebase" then
      ⟨hist, none, [], none⟩          -- unreachable: the attribute lookup fails
    else
      ⟨hist, none, [], some "AttributeError: scan_codebase"⟩
  else if pyEndsWith (pyLower (pyStrip question)) "/new" then
    ⟨reset hist, none, ["🔄  New chat started."], none⟩
  else
    ⟨hist, some question, [], none⟩

/-! #### Constructor call binding

`cli` (cli.py line 137) constructs the client with
`JarvisClient(model=model, context_size=context_window)`, while
`JarvisClient.__init__` (client.py line 25) declares only the keyword
parameter `model`.  Python keyword binding is modelled explicitly so the
call can be evaluated. -/

/-- A Python argument value as used at this call site. -/
inductive PyVal where
  | str (s : String)
  | int (n : Int)
deriving DecidableEq, Repr

/-- The client object state produced by a successful `__init__`. -/
structure JarvisState where
  model : PyVal
  history : List Message
deriving DecidableEq, Repr

/-- Keyword parameters of `JarvisClient.__init__` besides `self`
(client.py line 25): only `model`. -/
def jarvisInitParams : List String := ["model"]

/-- Calling `JarvisClient(**kwargs)`: Python raises `TypeError` if any
keyword is not a declared parameter; otherwise `model` defaults to
`MODEL_NAME` and the initial history is installed (client.py lines 25-36). -/
def jarvisClientNew (kwargs : List (String × PyVal)) :
    Except String JarvisState :=
  if kwargs.all (fun kv => jarvisInitParams.contains kv.1) then
    .ok ⟨((kwargs.lookup "model").getD (.str MODEL_NAME)), initHistory⟩
  else
    .error "TypeError: unexpected keyword argument"

/-- The construction the interactive loop performs at startup (cli.py line
137) for a given parsed `--model` and `--context` value. -/
def cliConstructClient (model : String) (contextWindow : Int) :
    Except String JarvisState :=
  jarvisClientNew [("model", .str model), ("context_size", .int contextWindow)]

/-! ### src/jarvis/scanner.py -/

/-- Module constant `MAX_CHARS_PER_FILE` (scanner.py line 24). -/
def MAX_CHARS_PER_FILE : Nat := 10000

/-- Module constant `MAX_TOTAL_CHARS` (scanner.py line 26). -/
def MAX_TOTAL_CHARS : Nat := 60000

/-- A scanned file: its root-relative posix path and the text produced by
`f.read_text(encoding=..., errors="replace")` (permissive decoding always
yields some text, so the content is plain text here). -/
structure PyFile where
  path : String
  content : String
deriving DecidableEq, Repr

/-- Models the Python standard library's `textwrap.shorten` per its
documented behaviour, as called on scanner.py line 64: all whitespace runs
in the text are collapsed to single spaces (`' '.join(text.split())`); if
the collapsed text fits in `width` it is returned unchanged; otherwise
words are dropped from the end so that the kept words plus the placeholder
fit within `width` (the placeholder alone, left-stripped, when no word
fits). -/
def pyShorten (text : String) (width : Nat) (placeholder : String) : String :=
  let collapsed := joinWith ' ' (pySplitWs text)
  if collapsed.length ≤ width then collapsed
  else
    let keep := shortenKeep width placeholder.length 0 (pySplitWs text)
    if keep = [] then String.mk (placeholder.data.dropWhile isPyWs)
    else joinWith ' ' keep ++ placeholder
where
  /-- Longest word prefix whose space-joined length plus the placeholder
  length stays within `width`; `cur` is the joined length kept so far. -/
  shortenKeep (width phLen : Nat) : Nat → List String → List String
    | _, [] => []
    | cur, w :: ws =>
      let newLen := if cur = 0 then w.length else cur + 1 + w.length
      if newLen + phLen ≤ width then
        w :: shortenKeep width phLen newLen ws
      else []

/-- The placeholder passed to `textwrap.shorten` on scanner.py line 64. -/
def truncPlaceholder : String := "\n# …truncated…\n"

/-- The per-file code text of `CodeSnapshot.from_paths` (scanner.py lines
62-64): the decoded content, shortened when longer than
`MAX_CHARS_PER_FILE`. -/
def fileCode (f : PyFile) : String :=
  if MAX_CHARS_PER_FILE < f.content.length then
    pyShorten f.content MAX_CHARS_PER_FILE truncPlaceholder
  else f.content

/-- One file's fenced block (scanner.py line 66). -/
def snippet (f : PyFile) : String :=
  "```python " ++ f.path ++ "\n" ++ fileCode f ++ "\n```\n\n"

/-- Length of a file's fenced block. -/
def snipLen (f : PyFile) : Nat := (snippet f).length

/-- The omission notice appended when the global cap stops assembly
(scanner.py line 68). -/
def omissionLine : String := "*Further files omitted to fit context*\n"

/-- Stable insertion of a path into a sorted path list (Python `sorted`
over paths, compared as their posix strings). -/
def insertPath (p : String) : List String → List String
  | [] => [p]
  | q :: qs => if p < q then p :: q :: qs else q :: insertPath p qs

/-- `sorted(files)` as the sorted list of posix path strings. -/
def sortedPaths (files : List PyFile) : List String :=
  (files.map (·.path)).foldr insertPath []

/-- The header part `md` of `from_paths` (scanner.py lines 53-56): the
"Project layout" tree — one bullet per sorted path — joined with newlines,
then the "Files" heading. -/
def treeMd (files : List PyFile) : String :=
  joinWith '\n' ("# Project layout\n" :: (sortedPaths files).map ("* " ++ ·)) ++
    "\n\n# Files\n"

/-- The body loop of `from_paths` (scanner.py lines 61-72): append each
file's snippet unless doing so would push the running `total` past
`MAX_TOTAL_CHARS`, in which case the omission line is appended and the
loop breaks. -/
def assembleFrom (total : Nat) : List PyFile → List String
  | [] => []
  | f :: fs =>
    let s := snippet f
    if MAX_TOTAL_CHARS < total + s.length then [omissionLine]
    else s :: assembleFrom (total + s.length) fs

/-- `CodeSnapshot.from_paths` (scanner.py lines 51-74): `"".join(body)`
where `body` starts with `md` and `total` starts at `len(md)`. -/
def from_paths (files : List PyFile) : String :=
  let md := treeMd files
  strJoin (md :: assembleFrom md.length files)

/-- "Appending file `j` keeps the running document total within the global
cap": header length plus the snippet lengths of files `0..j` inclusive. -/
def fitsUpTo (files : List PyFile) (j : Nat) : Prop :=
  (treeMd files).length + ((files.map snipLen).take (j + 1)).sum ≤
    MAX_TOTAL_CHARS

instance (files : List PyFile) (j : Nat) : Decidable (fitsUpTo files j) :=
  inferInstanceAs (Decidable (_ ≤ _))

/-- Python substring membership (`pat in s`), used to check for the
truncation placeholder inside a fenced block. -/
def strContainsSub (s pat : String) : Bool :=
  (List.range (s.length + 1)).any fun i =>
    (s.data.drop i).take pat.data.length == pat.data

/-- A 10,000-character file content (exactly at the per-file cap). -/
def aContent : String := String.mk (List.replicate 10000 'a')

/-- Seven cap-sized files: their combined fenced blocks exceed the global
60,000-character ceiling. -/
def witFiles : List PyFile :=
  [⟨"f0.py", aContent⟩, ⟨"f1.py", aContent⟩, ⟨"f2.py", aContent⟩,
   ⟨"f3.py", aContent⟩, ⟨"f4.py", aContent⟩, ⟨"f5.py", aContent⟩,
   ⟨"f6.py", aContent⟩]

/-- A 10,001-character file content that is one `x` followed by 10,000
spaces: longer than the per-file cap, but collapsing its whitespace leaves
just `x`. -/
def cBad : String := String.mk ('x' :: List.replicate 10000 ' ')

/-! ### Claims about the Chat Facade (client.py) -/

/-- Claim C1: the startup configuration's construction call
`JarvisClient(model="gemma3:4b", context_size=8192)` (cli.py line 137) is
claimed to succeed; on the code it raises `TypeError`, because
`JarvisClient.__init__` declares no `context_size` parameter. -/
theorem C1_startup_construction_raises_TypeError :
    cliConstructClient "gemma3:4b" 8192 =
      .error "TypeError: unexpected keyword argument" := rfl

/-- Claim C2: after a successful round trip the claim says the appended
entries are the user message and an assistant message holding the
concatenated fragments; the code (client.py line 72) instead copies
`self._history[-1]["content"]`, i.e. the user message's content.  At
prompt `"hi"` with streamed fragments `["Hello", "!"]`, the fragments
concatenate to `"Hello!"` but the assistant entry stores `"hi"`. -/
theorem C2_assistant_entry_copies_prompt :
    (ask (fun _ => .success ["Hello", "!"]) initHistory "hi").yielded =
      ["Hello", "!"] ∧
    strJoin ["Hello", "!"] = "Hello!" ∧
    (ask (fun _ => .success ["Hello", "!"]) initHistory "hi").history =
      initHistory ++ [⟨"user", "hi"⟩, ⟨"assistant", "hi"⟩] ∧
    ("hi" : String) ≠ "Hello!" := by
  refine ⟨rfl, rfl, ?_, by decide⟩
  simp [ask, MAX_RETRIES, askGo, initHistory, pyLastMsg]

/-- Claim C4: when the backend fails with a connection failure or read
timeout on all three attempts, `ask` raises the Unavailable error, no
assistant message is appended, and the user message appended for the
prompt remains in the history. -/
theorem C4_all_attempts_fail (backend : Nat → Attempt)
    (history : List Message) (prompt : String) (p1 p2 p3 : List String)
    (h1 : backend 1 = .failure p1) (h2 : backend 2 = .failure p2)
    (h3 : backend 3 = .failure p3) :
    (ask backend history prompt).error = true ∧
    (ask backend history prompt).history =
      history ++ [⟨"user", prompt⟩] := by
  simp [ask, MAX_RETRIES, askGo, h1, h2, h3]

/-- Witness for C4 at a concretely all-failing backend. -/
theorem C4_all_attempts_fail_witness :
    (ask (fun _ => .failure []) initHistory "hi").error = true ∧
    (ask (fun _ => .failure []) initHistory "hi").history =
      initHistory ++ [⟨"user", "hi"⟩] :=
  C4_all_attempts_fail _ _ _ [] [] [] rfl rfl rfl

/-- Claim C10: when an attempt fails mid-stream after yielding some
fragments and the next attempt succeeds, the consumer sees the first
attempt's fragments followed by the second attempt's fragments in one
response sequence — nothing is retracted. -/
theorem C10_fragments_span_attempts (backend : Nat → Attempt)
    (history : List Message) (prompt : String) (p q : List String)
    (h1 : backend 1 = .failure p) (h2 : backend 2 = .success q) :
    (ask backend history prompt).yielded = p ++ q ∧
    (ask backend history prompt).error = false := by
  simp [ask, MAX_RETRIES, askGo, h1, h2]

/-- Witness for C10: a backend that yields `"a"` then fails, then succeeds
with `"b", "c"`; the consumer observes fragments of both attempts. -/
theorem C10_fragments_span_attempts_witness :
    (ask (fun i => if i = 1 then .failure ["a"] else .success ["b", "c"])
        initHistory "hi").yielded = ["a"] ++ ["b", "c"] ∧
    (ask (fun i => if i = 1 then .failure ["a"] else .success ["b", "c"])
        initHistory "hi").error = false :=
  C10_fragments_span_attempts _ _ _ ["a"] ["b", "c"] rfl rfl

/-- Claim C6 counterexample: the claim says no wait is performed after the
final failed attempt; on an all-failing backend the code performs three
sleeps — `1.5`, `3.0` and `4.5` seconds — the last one after the third
failed attempt, right before the Unavailable error is raised. -/
theorem C6_counterexample_sleep_after_final_attempt :
    (ask (fun _ => .failure []) initHistory "hello").sleeps =
      [BACKOFF_SEC * 1, BACKOFF_SEC * 2, BACKOFF_SEC * 3] ∧
    (ask (fun _ => .failure []) initHistory "hello").sleeps ≠
      [BACKOFF_SEC * 1, BACKOFF_SEC * 2] ∧
    (ask (fun _ => .failure []) initHistory "hello").error = true := by
  refine ⟨?_, ?_, ?_⟩ <;> simp [ask, MAX_RETRIES, askGo]

/-- Claim C6 (amended): `ask` waits `1.5 × attempt_number` seconds after
every failed attempt — including the final one, so an all-failing run
sleeps 1.5 s, 3.0 s and 4.5 s before the Unavailable error; when the third
attempt succeeds only the two between-attempt waits of 1.5 s and 3.0 s
occur. -/
theorem C6_amended_backoff_after_every_failure :
    (∀ (backend : Nat → Attempt) (history : List Message) (prompt : String)
        (p1 p2 p3 : List String),
      backend 1 = .failure p1 → backend 2 = .failure p2 →
      backend 3 = .failure p3 →
      (ask backend history prompt).sleeps =
        [BACKOFF_SEC * 1, BACKOFF_SEC * 2, BACKOFF_SEC * 3] ∧
      (ask backend history prompt).error = true) ∧
    (∀ (backend : Nat → Attempt) (history : List Message) (prompt : String)
        (p1 p2 q : List String),
      backend 1 = .failure p1 → backend 2 = .failure p2 →
      backend 3 = .success q →
      (ask backend history prompt).sleeps =
        [BACKOFF_SEC * 1, BACKOFF_SEC * 2] ∧
      (ask backend history prompt).error = false) := by
  constructor
  · intro backend history prompt p1 p2 p3 h1 h2 h3
    simp [ask, MAX_RETRIES, askGo, h1, h2, h3]
  · intro backend history prompt p1 p2 q h1 h2 h3
    simp [ask, MAX_RETRIES, askGo, h1, h2, h3]

/-- Witness for the amended C6 at a concretely all-failing backend. -/
theorem C6_amended_backoff_witness :
    (ask (fun _ => .failure []) initHistory "hey").sleeps =
      [BACKOFF_SEC * 1, BACKOFF_SEC * 2, BACKOFF_SEC * 3] ∧
    (ask (fun _ => .failure []) initHistory "hey").error = true :=
  C6_amended_backoff_after_every_failure.1 _ _ _ [] [] [] rfl rfl rfl

/-! ### Claims about the Interaction Loop (cli.py) -/

/-- Claim C3: the claim says `/scancode <path>` invokes the Codebase
Scanner and the loop continues with no error escaping; on the code the
attribute lookup `client.scan_codebase` (cli.py line 146) raises
`AttributeError` — `JarvisClient` defines no such method — so the error
escapes the dispatch. -/
theorem C3_scancode_raises_AttributeError :
    loopBody initHistory "/scancode /tmp" =
      ⟨initHistory, none, [], some "AttributeError: scan_codebase"⟩ := by
  decide

/-- Claim C5 counterexample: the claim says a draft ending in `/new` first
submits the draft as a prompt; on the code the draft `"hello\n/new"`
triggers only `client.reset()` and the confirmation — nothing is submitted
to `ask`. -/
theorem C5_counterexample_draft_not_submitted :
    loopBody initHistory "hello\n/new" =
      ⟨reset initHistory, none, ["🔄  New chat started."], none⟩ ∧
    (loopBody initHistory "hello\n/new").asked ≠ some "hello\n/new" := by
  decide

/-- Claim C5 (amended): submitting a draft whose text ends with `/new`
(case-insensitive, and not starting with `/scancode`) resets the
conversation history to the system message and prints the confirmation;
the draft itself is not submitted as a prompt. -/
theorem C5_amended_new_resets_without_submitting
    (hist : List Message) (q : String)
    (hne : pyStrip q ≠ "")
    (hscan : pyStartsWith (pyLower (pyStrip q)) "/scancode" = false)
    (hnew : pyEndsWith (pyLower (pyStrip q)) "/new" = true) :
    loopBody hist q =
      ⟨reset hist, none, ["🔄  New chat started."], none⟩ := by
  simp [loopBody, hne, hscan, hnew]

/-- Witness for the amended C5 on the draft `"draft line\n/new"`. -/
theorem C5_amended_witness :
    loopBody initHistory "draft line\n/new" =
      ⟨reset initHistory, none, ["🔄  New chat started."], none⟩ :=
  C5_amended_new_resets_without_submitting initHistory "draft line\n/new"
    (by decide) (by decide) (by decide)

/-! ### String append helpers -/

theorem strAppend_empty (s : String) : s ++ "" = s := by
  cases s with
  | mk d =>
    show String.mk (d ++ []) = String.mk d
    simp

theorem strAppend_assoc (a b c : String) :
    a ++ b ++ c = a ++ (b ++ c) := by
  cases a with
  | mk x =>
    cases b with
    | mk y =>
      cases c with
      | mk z =>
        show String.mk (x ++ y ++ z) = String.mk (x ++ (y ++ z))
        simp

/-! ### Prompt-reader lemmas (cli.py `_read_multiline_question`) -/

theorem isSentinel_empty : isSentinel "" = false := by decide

/-- Walking the reader over non-blank, non-sentinel lines followed by a
blank line: every such line is captured, and the blank line then
terminates (unless nothing at all was captured, in which case the blank is
skipped and reading continues on the rest). -/
theorem readAux_walk (ls : List String)
    (h : ∀ l ∈ ls, l ≠ "" ∧ isSentinel l = false) :
    ∀ (acc rest : List String),
      readAux (ls ++ "" :: rest) acc =
        if acc ++ ls = [] then readAux rest []
        else some (acc ++ ls ++ [""]) := by
  induction ls with
  | nil =>
    intro acc rest
    by_cases hacc : acc = [] <;>
      simp [readAux, isSentinel_empty, hacc]
  | cons l t ih =>
    intro acc rest
    obtain ⟨hl1, hl2⟩ := h l (by simp)
    have ht : ∀ x ∈ t, x ≠ "" ∧ isSentinel x = false :=
      fun x hx => h x (by simp [hx])
    have step : readAux ((l :: t) ++ "" :: rest) acc =
        readAux (t ++ "" :: rest) (acc ++ [l]) := by
      simp [readAux, hl1, hl2]
    rw [step, ih ht (acc ++ [l]) rest]
    simp

/-- `"\n".join` over a line list with a trailing blank entry appends a
single newline to the join of the other lines. -/
theorem joinWith_append_blank (sep : Char) (ls : List String) (h : ls ≠ []) :
    joinWith sep (ls ++ [""]) = joinWith sep ls ++ String.mk [sep] := by
  induction ls with
  | nil => exact absurd rfl h
  | cons l t ih =>
    cases t with
    | nil =>
      show joinWith sep [l, ""] = joinWith sep [l] ++ String.mk [sep]
      simp [joinWith, strAppend_empty]
    | cons a t2 =>
      have ih2 := ih (by simp)
      show l ++ String.mk [sep] ++ joinWith sep ((a :: t2) ++ [""]) = _
      rw [ih2]
      simp [joinWith, strAppend_assoc]

/-- `rstrip("\n")` absorbs a trailing newline. -/
theorem pyRstripNl_append_newline (s : String) :
    pyRstripNl (s ++ "\n") = pyRstripNl s := by
  cases s with
  | mk data =>
    have hdata : (String.mk data ++ "\n").data = data ++ ['\n'] := rfl
    simp [pyRstripNl, hdata]

/-- Claim C9 counterexample: `["/send", "a", ""]` is a sequence of
non-blank lines followed by a blank line, but the reader stops at the
sentinel `/send` and returns `"/send"`, not the lines joined by
newlines. -/
theorem C9_counterexample_sentinel_line :
    readQuestion ["/send", "a", ""] = some "/send" ∧
    readQuestion ["/send", "a", ""] ≠
      some (pyRstripNl (joinWith '\n' ["/send", "a"])) := by
  decide

/-- Claim C9 (amended): a blank input line terminates reading exactly when
at least one line has already been captured (a leading blank is skipped
and reading continues), and for any non-empty sequence of non-blank lines
none of which is a `/send`/`/new` sentinel, followed by a blank line, the
reader returns those lines joined by newlines with trailing newlines
stripped. -/
theorem C9_amended_reader :
    (∀ (rest acc : List String),
      readAux ("" :: rest) acc =
        if acc = [] then readAux rest [] else some (acc ++ [""])) ∧
    (∀ (ls rest : List String), ls ≠ [] →
      (∀ l ∈ ls, l ≠ "" ∧ isSentinel l = false) →
      readQuestion (ls ++ "" :: rest) =
        some (pyRstripNl (joinWith '\n' ls))) := by
  constructor
  · intro rest acc
    by_cases hacc : acc = [] <;>
      simp [readAux, isSentinel_empty, hacc]
  · intro ls rest hne h
    have hwalk := readAux_walk ls h [] rest
    simp only [List.nil_append, hne, if_neg] at hwalk
    have : readQuestion (ls ++ "" :: rest) =
        some (pyRstripNl (joinWith '\n' (ls ++ [""]))) := by
      simp [readQuestion, hwalk]
    rw [this, joinWith_append_blank '\n' ls hne]
    have hnl : String.mk ['\n'] = "\n" := rfl
    rw [hnl, pyRstripNl_append_newline]

/-- Witness for the amended C9 on the concrete input lines
`"alpha"`, `"beta"`, blank. -/
theorem C9_amended_reader_witness :
    readQuestion ["alpha", "beta", ""] = some "alpha\nbeta" := by
  have h := C9_amended_reader.2 ["alpha", "beta"] [] (by decide) (by decide)
  simp only [List.cons_append, List.nil_append] at h
  rw [h]
  decide

/-! ### Snapshot-assembly lemmas (scanner.py `CodeSnapshot.from_paths`) -/

theorem strJoin_append (a b : List String) :
    strJoin (a ++ b) = strJoin a ++ strJoin b := by
  induction a with
  | nil => rfl
  | cons x t ih => simp [strJoin, ih, strAppend_assoc]

/-- Characterization of the body loop: either every file fits under the
global cap and all snippets are emitted, or there is a first index `k`
whose snippet would push the running total past the cap; the snippets
before `k` are emitted followed by the omission line. -/
theorem assembleFrom_cases (files : List PyFile) (total : Nat) :
    (assembleFrom total files = files.map snippet ∧
      ∀ j, j < files.length →
        total + ((files.map snipLen).take (j + 1)).sum ≤ MAX_TOTAL_CHARS) ∨
    (∃ k, k < files.length ∧
      (∀ j, j < k →
        total + ((files.map snipLen).take (j + 1)).sum ≤ MAX_TOTAL_CHARS) ∧
      MAX_TOTAL_CHARS < total + ((files.map snipLen).take (k + 1)).sum ∧
      assembleFrom total files = (files.take k).map snippet ++ [omissionLine]) := by
  induction files generalizing total with
  | nil =>
    left
    exact ⟨rfl, fun j hj => absurd hj (by simp)⟩
  | cons f fs ih =>
    by_cases hcap : MAX_TOTAL_CHARS < total + (snippet f).length
    · right
      refine ⟨0, by simp, fun j hj => absurd hj (Nat.not_lt_zero j), ?_, ?_⟩
      · simpa [snipLen] using hcap
      · simp [assembleFrom, hcap]
    · have hfit : total + (snippet f).length ≤ MAX_TOTAL_CHARS :=
        Nat.not_lt.mp hcap
      have hstep : assembleFrom total (f :: fs) =
          snippet f :: assembleFrom (total + (snippet f).length) fs := by
        simp [assembleFrom, hcap]
      rcases ih (total + (snippet f).length) with
        ⟨heq, hall⟩ | ⟨k, hk, hbelow, hover, heq⟩
      · left
        refine ⟨by simp [hstep, heq], ?_⟩
        intro j hj
        cases j with
        | zero => simpa [snipLen] using hfit
        | succ j2 =>
          have h2 := hall j2 (by simpa using hj)
          simp only [List.map_cons, List.take_succ_cons, List.sum_cons,
            snipLen] at h2 ⊢
          omega
      · right
        refine ⟨k + 1, by simpa using hk, ?_, ?_, ?_⟩
        · intro j hj
          cases j with
          | zero => simpa [snipLen] using hfit
          | succ j2 =>
            have h2 := hbelow j2 (Nat.lt_of_succ_lt_succ hj)
            simp only [List.map_cons, List.take_succ_cons, List.sum_cons,
              snipLen] at h2 ⊢
            omega
        · have h2 := hover
          simp only [List.map_cons, List.take_succ_cons, List.sum_cons,
            snipLen] at h2 ⊢
          omega
        · simp [hstep, heq]

/-- Claim C7: whenever the combined fenced blocks exceed the global
60,000-character ceiling, assembly stops at the first file whose block
would push the running document total past the ceiling: the document is
the header, the full snippets of the files before that point, and the
omission notice; no later file is included. -/
theorem C7_global_cap_stops_assembly (files : List PyFile)
    (h : MAX_TOTAL_CHARS < (files.map snipLen).sum) :
    ∃ k, k < files.length ∧
      (∀ j, j < k → fitsUpTo files j) ∧
      ¬ fitsUpTo files k ∧
      from_paths files =
        treeMd files ++ strJoin ((files.take k).map snippet) ++ omissionLine := by
  rcases assembleFrom_cases files (treeMd files).length with
    ⟨heq, hall⟩ | ⟨k, hk, hbelow, hover, heq⟩
  · exfalso
    have hne : files ≠ [] := by
      intro hnil
      rw [hnil] at h
      simp [MAX_TOTAL_CHARS] at h
    have hlen : 0 < files.length := List.length_pos.mpr hne
    have hlast := hall (files.length - 1) (by omega)
    have htake : (files.map snipLen).take (files.length - 1 + 1) =
        files.map snipLen := by
      have heq2 : files.length - 1 + 1 = files.length := by omega
      rw [heq2, ← List.length_map files snipLen, List.take_length]
    rw [htake] at hlast
    omega
  · refine ⟨k, hk, fun j hj => hbelow j hj, Nat.not_le.mpr hover, ?_⟩
    simp [from_paths, strJoin, heq, strJoin_append, strAppend_empty,
      strAppend_assoc]

/-- Each witness file at the per-file cap yields a fenced block of
`path length + 10017` characters. -/
theorem witSnipLen (p : String) :
    snipLen ⟨p, aContent⟩ = p.length + 10017 := by
  have hlen : aContent.length = 10000 := by
    show (List.replicate 10000 'a').length = 10000
    exact List.length_replicate 10000 'a'
  have h1 : ("```python " : String).length = 10 := rfl
  have h2 : ("\n" : String).length = 1 := rfl
  have h3 : ("\n```\n\n" : String).length = 6 := rfl
  simp only [snipLen, snippet, fileCode, hlen, MAX_CHARS_PER_FILE]
  rw [if_neg (by omega)]
  simp only [String.length_append, h1, h2, h3, hlen]
  omega

/-- The seven witness files' fenced blocks total 70,154 characters,
exceeding the global cap. -/
theorem witFiles_sum : MAX_TOTAL_CHARS < (witFiles.map snipLen).sum := by
  have h : witFiles.map snipLen =
      [10022, 10022, 10022, 10022, 10022, 10022, 10022] := by
    simp only [witFiles, List.map_cons, List.map_nil, witSnipLen]
    decide
  rw [h]
  decide

/-- Witness for C7 on the seven cap-sized files. -/
theorem C7_global_cap_witness :
    MAX_TOTAL_CHARS < (witFiles.map snipLen).sum ∧
    ∃ k, k < witFiles.length ∧
      (∀ j, j < k → fitsUpTo witFiles j) ∧
      ¬ fitsUpTo witFiles k ∧
      from_paths witFiles =
        treeMd witFiles ++ strJoin ((witFiles.take k).map snippet) ++
          omissionLine :=
  ⟨witFiles_sum, C7_global_cap_stops_assembly witFiles witFiles_sum⟩

/-! ### Per-file shortening lemmas (scanner.py line 64, `textwrap.shorten`) -/

/-- Splitting a run of spaces yields no further words: the pending word is
emitted (if any) and nothing else. -/
theorem splitWsAux_spaces (n : Nat) (acc : List Char) :
    splitWsAux (List.replicate n ' ') acc =
      if acc = [] then [] else [acc.reverse] := by
  induction n generalizing acc with
  | zero =>
    cases acc with
    | nil => rfl
    | cons x xs => rfl
  | succ m ih =>
    have hsp : isPyWs ' ' = true := rfl
    by_cases hacc : acc = []
    · simp [List.replicate_succ, splitWsAux, hsp, hacc, ih]
    · simp [List.replicate_succ, splitWsAux, hsp, hacc, ih]

/-- Splitting starts by reading the non-whitespace `x` into the pending
word. -/
theorem splitWsAux_cons_x (cs : List Char) :
    splitWsAux ('x' :: cs) [] = splitWsAux cs ['x'] := by
  simp [splitWsAux]
  intro h
  exact absurd h (by decide)

/-- `cBad.split()` collapses to the single word `x`. -/
theorem pySplitWs_cBad : pySplitWs cBad = ["x"] := by
  show (splitWsAux ('x' :: List.replicate 10000 ' ') []).map String.mk = ["x"]
  rw [splitWsAux_cons_x, splitWsAux_spaces]
  rfl

theorem cBad_length : cBad.length = 10001 := by
  show ('x' :: List.replicate 10000 ' ').length = 10001
  rw [List.length_cons, List.length_replicate]

/-- Claim C8: a 10,001-character file content (one `x` and 10,000 spaces)
exceeds the per-file cap, yet its fenced block is `x` — the whitespace is
collapsed by `textwrap.shorten`, the result is not a 10,000-character
truncation of the content, and the `…truncated…` placeholder is absent
even though the content exceeded 10,000 characters. -/
theorem C8_shorten_collapses_and_omits_placeholder :
    MAX_CHARS_PER_FILE < cBad.length ∧
    snippet ⟨"a.py", cBad⟩ = "```python a.py\nx\n```\n\n" ∧
    strContainsSub (snippet ⟨"a.py", cBad⟩) "…truncated…" = false := by
  have hlen : MAX_CHARS_PER_FILE < cBad.length := by
    rw [cBad_length]
    decide
  have hcode : fileCode ⟨"a.py", cBad⟩ = "x" := by
    simp only [fileCode]
    rw [if_pos hlen]
    simp only [pyShorten, pySplitWs_cBad]
    rfl
  have hsnip : snippet ⟨"a.py", cBad⟩ = "```python a.py\nx\n```\n\n" := by
    simp only [snippet, hcode]
    rfl
  refine ⟨hlen, hsnip, ?_⟩
  rw [hsnip]
  decide

end Jarvis
